import Mathlib

/-!
Shallow embedding of the photo-ingestion Lambda (`handler/src/upload-lambda.js`)
and proofs of the specification claims about it.

Modelling conventions:
* JavaScript strings are Lean `String`s; JS `||` short-circuit defaulting on
  strings/numbers is modelled by `jsOrStr` / `jsOrNat` (empty string and `0`
  are falsy in JS).
* `Date` values are epoch-millisecond integers (`JsDate`); the opaque builtin
  `Date.prototype.toISOString` is a function in the environment `Env`, like
  the other opaque capabilities (sharp, exif-parser, `decodeURIComponent`,
  `encodeURIComponent`) the source treats as black boxes.
* Asynchronous S3 calls are modelled by outcome functions in `Env`; the
  operations a run issues are accumulated in a `List StorageOp` trace.
  Wall-clock durations are not modelled (metric fields are 0); retried calls
  appear once in the trace with their final outcome, the retry combinator
  itself is modelled separately (`retryFrom` / `retryWithBackoff`).
* Thrown JS errors are `JsError` values propagated through `Except`.
-/

namespace Photo3s

/-- Raw byte buffers; the modelled control flow only ever observes a buffer's
length, so bytes are plain naturals. -/
abbrev Buf := List Nat

/-- A JS `Error`: its `message` and optional `code` property. -/
structure JsError where
  message : String
  code : Option String := none
deriving Repr, DecidableEq

/-- A JS `Date`, identified by its epoch-millisecond value. -/
structure JsDate where
  epochMs : Int
deriving Repr, DecidableEq

/-- JS `a || d` for a possibly-undefined string `a`: `undefined` and the empty
string are falsy and fall through to the default. -/
def jsOrStr (v : Option String) (d : String) : String :=
  match v with
  | none => d
  | some s => if s = "" then d else s

/-- JS truthiness of a possibly-undefined string. -/
def jsTruthyStr (v : Option String) : Bool :=
  match v with
  | none => false
  | some s => s != ""

/-- JS `a || d` for a possibly-undefined number: `undefined` and `0` are falsy. -/
def jsOrNat (v : Option Nat) (d : Nat) : Nat :=
  match v with
  | none => d
  | some n => if n = 0 then d else n

/-- JS `record.s3.object.size || 'unknown'`: a missing or zero size becomes
the non-number marker (modelled as `none`). -/
def jsSizeOrUnknown (v : Option Nat) : Option Nat :=
  match v with
  | none => none
  | some n => if n = 0 then none else some n

/-- Substring test on character lists (models JS regex alternation of plain
words, as used by the error classifier). -/
def listHasSub (pat : List Char) : List Char → Bool
  | [] => pat.isEmpty
  | c :: t => pat.isPrefixOf (c :: t) || listHasSub pat t

/-- Substring test on strings. -/
def strHasSub (s pat : String) : Bool :=
  listHasSub pat.toList s.toList

/-- JS `String.prototype.replace` with a plain string pattern replaces only the
first occurrence; helper on character lists. -/
def listReplaceFirst (pat rep : List Char) : List Char → List Char
  | [] => []
  | c :: t =>
    if pat.isPrefixOf (c :: t) then rep ++ (c :: t).drop pat.length
    else c :: listReplaceFirst pat rep t

/-- JS `s.replace(pat, rep)` for a plain (non-regex) pattern: first occurrence
only. -/
def jsReplaceFirst (s pat rep : String) : String :=
  String.mk (listReplaceFirst pat.toList rep.toList s.toList)

/-- `s.split(sep)` for a one-character separator, on character lists; `acc`
holds the current (reversed) field. -/
def splitCharAux (sep : Char) : List Char → List Char → List (List Char)
  | [], acc => [acc.reverse]
  | c :: t, acc =>
    if c = sep then acc.reverse :: splitCharAux sep t []
    else splitCharAux sep t (c :: acc)

/-- JS `s.split(sep)` for a one-character separator (the source only splits
on `"."`, `"/"` and `"T"`): `"a.b.".split(".") = ["a","b",""]`,
`"".split(".") = [""]`. -/
def splitChar (s : String) (sep : Char) : List String :=
  (splitCharAux sep s.toList []).map String.mk

/-- JS `s.replace(/c/g, r)` for a one-character pattern. -/
def replaceAllChar (s : String) (c r : Char) : String :=
  String.mk (s.toList.map (fun x => if x = c then r else x))

/-- JS `s.toLowerCase()` (ASCII case folding, which covers every string the
code lower-cases: extensions, camera makes, dispositions). -/
def lowerStr (s : String) : String :=
  String.mk (s.toList.map Char.toLower)

/-- JS `s.startsWith(pat)`. -/
def strStartsWith (s pat : String) : Bool :=
  pat.toList.isPrefixOf s.toList

/-- JS `s.endsWith(pat)`. -/
def strEndsWith (s pat : String) : Bool :=
  pat.toList.isSuffixOf s.toList

/-- JS `s.replace(/[:.]/g, "-")`: every colon and dot becomes a dash. -/
def colonDotToDash (s : String) : String :=
  String.mk (s.toList.map (fun c => if c == ':' || c == '.' then '-' else c))

/-- JS `\s` on the ASCII range (the camera names the code manipulates);
further whitespace code points exist in JS but behave identically here. -/
def isJsWs (c : Char) : Bool :=
  c == ' ' || c == '\t' || c == '\n' || c == '\r' || c == '\x0b' || c == '\x0c'

/-- JS `s.replace(/\s+/g, "_")` on a character list: each maximal whitespace
run becomes a single underscore.  The boolean records whether the previous
character was whitespace (i.e. we are inside a run already replaced). -/
def squashWsAux : Bool → List Char → List Char
  | _, [] => []
  | inWs, c :: t =>
    if isJsWs c then
      if inWs then squashWsAux true t else '_' :: squashWsAux true t
    else c :: squashWsAux false t

/-- JS `camera.replace(/\s+/g, "_")`. -/
def underscoreWs (s : String) : String :=
  String.mk (squashWsAux false s.toList)

/-- The chain `.replace(/[:.]/g, "-").replace("T", "_").split(".")[0]` applied
to an ISO date string (upload-lambda.js lines 445 and 199). -/
def isoTimestampSlug (iso : String) : String :=
  (splitChar (jsReplaceFirst (colonDotToDash iso) "T" "_") '.').headD ""

/-- `(n / 1024 / 1024).toFixed(2)`: fixed-point megabyte rendering, rounding
half up (IEEE-754 tie behaviour may differ on exact ties; no claim depends on
these digits). -/
def mbString (n : Nat) : String :=
  let c := (n * 200 + 1048576) / 2097152
  let r := c % 100
  toString (c / 100) ++ "." ++ (if r < 10 then "0" ++ toString r else toString r)

/-- `SUPPORTED_FORMATS` (upload-lambda.js line 16). -/
def SUPPORTED_FORMATS : List String := ["jpg", "jpeg", "png", "tiff", "tif", "webp"]

/-- Width/height pair as stored in EXIF `imageSize` and in persisted
`originalDimensions`. -/
structure Dims where
  width : Int
  height : Int
deriving Repr, DecidableEq

/-- The EXIF tag subset the pipeline reads (`exif.tags`). -/
structure ExifTags where
  DateTimeOriginal : Option Int := none
  Make : Option String := none
  Model : Option String := none
deriving Repr, DecidableEq

/-- Result of `ExifParser.create(buf).parse()`. -/
structure ExifData where
  tags : ExifTags
  imageSize : Option Dims := none
deriving Repr, DecidableEq

/-- The `exifData` object found inside a candidate metadata JSON document
(fields the duplicate scan reads; absent fields are `none`). -/
structure StoredExif where
  make : Option String := none
  dateTimeOriginal : Option String := none
deriving Repr, DecidableEq

/-- A parsed candidate metadata JSON document, as read by `checkForDuplicates`
(`existingMetadata`).  A JSON value whose field accesses would throw at the
fallback camera comparison is modelled by `camera := none`. -/
structure MetaRecord where
  fileSize : Int
  camera : Option String := none
  exifData : Option StoredExif := none
  originalDimensions : Option Dims := none
deriving Repr, DecidableEq

/-- Result object of an S3 `GetObjectCommand`. -/
structure S3GetResult where
  Body : Option Buf := none
  ContentType : Option String := none
  ContentLength : Option Nat := none
deriving Repr, DecidableEq

/-- One storage operation issued during a run (bodies and cache headers are
not observed by any claim and are elided; the copy records its metadata
tags). -/
inductive StorageOp where
  | get (bucket key : String)
  | list (bucket searchKey : String) (maxKeys : Nat)
  | put (bucket key : String)
  | copy (bucket key copySource : String) (tags : List (String × Option String))
  | del (bucket key : String)
deriving Repr, DecidableEq

/-- A storage *write* (put, copy or delete), as opposed to a read. -/
def isWriteOp : StorageOp → Bool
  | .put _ _ => true
  | .copy _ _ _ _ => true
  | .del _ _ => true
  | _ => false

/-- An upload (`PutObjectCommand`). -/
def isPutOp : StorageOp → Bool
  | .put _ _ => true
  | _ => false

/-- Result of `sharp(imageBuffer).metadata()`. -/
structure ImgMeta where
  width : Option Int := none
  height : Option Int := none
  format : Option String := none
deriving Repr, DecidableEq

/-- Ambient capabilities of one invocation: the opaque JS builtins and
the outcome of each external call the handler might make.  `listObjects`
returns `none` for a response without a `Contents` array; `fetchJson`
bundles the metadata `GetObject` + JSON parse + field access of the
duplicate scan's inner `try` block. -/
structure Env where
  now : JsDate
  toISO : JsDate → String
  decodeURI : String → String
  encodeURI : String → String
  getObject : String → String → Except JsError S3GetResult
  listObjects : String → String → Nat → Except JsError (Option (List String))
  fetchJson : String → String → Except JsError MetaRecord
  exifParse : Buf → Except JsError ExifData
  resize : Nat → Nat → Nat → Buf → Except JsError Buf
  processingTimedOut : Bool
  sharpMeta : Buf → Except JsError ImgMeta
  copyObject : String → String → String → Except JsError Unit
  deleteObject : String → String → Except JsError Unit
  putObject : String → String → Except JsError Unit

/-- Value of a `BUCKET_MAPPINGS` entry. -/
structure BucketMap where
  processed : Option String := none
deriving Repr, DecidableEq

/-- The `CONFIG` object (upload-lambda.js lines 44-68).  `duplicatesPfx`
models `DUPLICATES_PREFIX`, the quarantine path stem. -/
structure Config where
  allowedSourceBuckets : Option (List String) := none
  bucketMappings : String → Option BucketMap := fun _ => none
  checkDuplicates : Bool := true
  duplicateAction : String := "replace"
  duplicatesPfx : String := "duplicates/"
  maxFileSize : Nat := 104857600
  operationTimeout : Nat := 30000
  detailedLogging : Bool := false

/-- `record.s3.bucket`. -/
structure S3Bucket where
  name : String
deriving Repr, DecidableEq

/-- `record.s3.object`. -/
structure S3Obj where
  key : String
  size : Option Nat := none
deriving Repr, DecidableEq

/-- `record.s3`. -/
structure S3Entity where
  bucket : Option S3Bucket := none
  object : Option S3Obj := none
deriving Repr, DecidableEq

/-- One record of the trigger notification. -/
structure S3EventRecord where
  s3 : Option S3Entity := none
deriving Repr, DecidableEq

/-- The trigger event (`Records` may be absent). -/
structure S3Event where
  Records : Option (List S3EventRecord) := none
deriving Repr, DecidableEq

/-- Return value of `validateEvent`. -/
structure ValidatedEvent where
  sourceBucket : String
  key : String
  fileSize : Option Nat
  ext : String
deriving Repr, DecidableEq

/-- `validateEvent` (upload-lambda.js lines 350-370): consumes the first
record only, decodes the key, extracts the lower-cased extension and rejects
unsupported formats. -/
def validateEvent (env : Env) (event : S3Event) : Except JsError ValidatedEvent :=
  match event.Records with
  | none => .error ⟨"No S3 records found in event", none⟩
  | some [] => .error ⟨"No S3 records found in event", none⟩
  | some (record :: _) =>
    match record.s3 with
    | none => .error ⟨"Invalid S3 record structure", none⟩
    | some s3e =>
      match s3e.bucket, s3e.object with
      | some bkt, some obj =>
        let sourceBucket := bkt.name
        let key := env.decodeURI (replaceAllChar obj.key '+' ' ')
        let fileSize := jsSizeOrUnknown obj.size
        let ext := lowerStr ((splitChar key '.').getLastD "")
        if ext = "" ∨ SUPPORTED_FORMATS.contains ext = false then
          .error ⟨"Unsupported file format: " ++ ext, none⟩
        else
          .ok ⟨sourceBucket, key, fileSize, ext⟩
      | _, _ => .error ⟨"Invalid S3 record structure", none⟩

/-- Return value of `resolveBucketMapping`. -/
structure ResolvedTarget where
  targetBucket : String
  isUsingSeparateBucket : Bool
deriving Repr, DecidableEq

/-- The first gate of `resolveBucketMapping`:
`typeof fileSize === 'number' && fileSize > CONFIG.MAX_FILE_SIZE`. -/
def sizeExceededGate (cfg : Config) (fileSize : Option Nat) : Bool :=
  match fileSize with
  | some n => decide (n > cfg.maxFileSize)
  | none => false

/-- The second gate of `resolveBucketMapping`:
`CONFIG.ALLOWED_SOURCE_BUCKETS && !CONFIG.ALLOWED_SOURCE_BUCKETS.includes(sourceBucket)`. -/
def sourceDisallowedGate (cfg : Config) (sourceBucket : String) : Bool :=
  match cfg.allowedSourceBuckets with
  | some l => ! l.contains sourceBucket
  | none => false

/-- `resolveBucketMapping` (upload-lambda.js lines 372-396): size ceiling,
allow-list, quarantine-loop prevention, then the static mapping table with
fallback to the source bucket. -/
def resolveBucketMapping (cfg : Config) (sourceBucket key : String)
    (fileSize : Option Nat) : Except JsError ResolvedTarget :=
  if sizeExceededGate cfg fileSize then
    .error ⟨"File size " ++ mbString (fileSize.getD 0) ++ "MB exceeds maximum "
            ++ mbString cfg.maxFileSize ++ "MB", none⟩
  else if sourceDisallowedGate cfg sourceBucket then
    .error ⟨"Bucket " ++ sourceBucket ++ " not allowed", none⟩
  else if strStartsWith key cfg.duplicatesPfx then
    .error ⟨"already_in_duplicates", none⟩
  else
    let processed := (cfg.bucketMappings sourceBucket).bind (fun m => m.processed)
    let targetBucket := jsOrStr processed sourceBucket
    let sep := match processed with
      | none => false
      | some p => p != "" && p != sourceBucket
    .ok ⟨targetBucket, sep⟩

/-- Return value of `downloadImage`. -/
structure Downloaded where
  imageBuffer : Buf
  original : S3GetResult
  actualFileSize : Nat
deriving Repr, DecidableEq

/-- `downloadImage` (upload-lambda.js lines 398-416).  The retried
`GetObjectCommand` appears once in the trace with its final outcome. -/
def downloadImage (env : Env) (sourceBucket key : String) :
    Except JsError Downloaded × List StorageOp :=
  let op := StorageOp.get sourceBucket key
  match env.getObject sourceBucket key with
  | .error e => (.error e, [op])
  | .ok orig =>
    match orig.Body with
    | none => (.error ⟨"Empty S3 body", none⟩, [op])
    | some buf => (.ok ⟨buf, orig, jsOrNat orig.ContentLength buf.length⟩, [op])

/-- Return value of `parseExif`. -/
structure ParsedExif where
  exif : Option ExifData
  exifDate : Option JsDate
  camera : String
deriving Repr, DecidableEq

/-- `parseExif` (upload-lambda.js lines 418-441): the parse runs in a race
against the operation timeout; `outcome` is whichever settled first (a timeout
is `.error ⟨"EXIF parsing timeout", none⟩`).  Every failure is absorbed into
the defaults.  A zero `DateTimeOriginal` is falsy in JS and yields no date. -/
def parseExif (outcome : Except JsError ExifData) : ParsedExif :=
  match outcome with
  | .error _ => ⟨none, none, "unknown"⟩
  | .ok exif =>
    let exifDate : Option JsDate := match exif.tags.DateTimeOriginal with
      | some dt => if dt = 0 then none else some ⟨dt * 1000⟩
      | none => none
    ⟨some exif, exifDate, jsOrStr exif.tags.Make "unknown"⟩

/-- `generateBaseName` (upload-lambda.js lines 443-448). -/
def generateBaseName (env : Env) (exifDate : Option JsDate) (camera : String) :
    String × JsDate :=
  let shotDate := exifDate.getD env.now
  let timestamp := isoTimestampSlug (env.toISO shotDate)
  ("photo-" ++ timestamp ++ "-" ++ underscoreWs camera, shotDate)

/-- The duplicate verdict object built by `checkForDuplicates`.  `error`
carries the degradation message of the outer catch; `searchKey` models the
`searchPrefix` field of the no-duplicate return. -/
structure DupVerdict where
  isDuplicate : Bool
  reason : Option String := none
  existingFile : Option String := none
  confidence : Option String := none
  filesChecked : Nat := 0
  error : Option String := none
  searchKey : Option String := none
deriving Repr, DecidableEq

/-- The comparison body of the duplicate-scan loop for one parsed candidate
(upload-lambda.js lines 121-174): size gate, then the EXIF
timestamp/camera/dimension cascade, then the size+camera fallback.  Returns
`(reason, confidence)` on a match; an `.error` models a thrown field access
(caught by the loop's `catch`, which continues). -/
def dupCompareOne (env : Env) (meta : MetaRecord) (fileSize : Int)
    (camera : String) (exif : Option ExifData) :
    Except JsError (Option (String × String)) :=
  if (meta.fileSize - fileSize).natAbs < 1024 then
    let exifVerdict : Option (String × String) :=
      match exif, meta.exifData with
      | some ex, some stored =>
        let existingTs := stored.dateTimeOriginal
        let currentTs : Option String := match ex.tags.DateTimeOriginal with
          | some dt => if dt = 0 then none else some (env.toISO ⟨dt * 1000⟩)
          | none => none
        if jsTruthyStr existingTs && jsTruthyStr currentTs && existingTs == currentTs then
          let existingCamera := jsOrStr stored.make "unknown"
          let currentCamera := jsOrStr ex.tags.Make "unknown"
          if lowerStr existingCamera == lowerStr currentCamera then
            match meta.originalDimensions, ex.imageSize with
            | some d1, some d2 =>
              if d1.width == d2.width && d1.height == d2.height then
                some ("exact_match_exif_timestamp_camera_dimensions", "high")
              else
                some ("exact_match_exif_timestamp_camera", "high")
            | _, _ => some ("exact_match_exif_timestamp_camera", "high")
          else none
        else none
      | _, _ => none
    match exifVerdict with
    | some v => .ok (some v)
    | none =>
      match meta.camera with
      | none => .error ⟨"Cannot read properties of undefined (reading toLowerCase)", none⟩
      | some existingCam =>
        if lowerStr existingCam == lowerStr camera then
          .ok (some ("size_camera_match_no_exif_comparison", "medium"))
        else .ok none
  else .ok none

/-- One iteration of the duplicate-scan loop seen from the outside: `none`
when the candidate does not qualify (fetch/parse failure, thrown comparison,
or no match), `some (reason, confidence)` when it does. -/
def scanStep (env : Env) (targetBucket : String) (fileSize : Int)
    (camera : String) (exif : Option ExifData) (k : String) :
    Option (String × String) :=
  match env.fetchJson targetBucket k with
  | .error _ => none
  | .ok meta =>
    match dupCompareOne env meta fileSize camera exif with
    | .ok (some v) => some v
    | _ => none

/-- The `for (const jsonFile of jsonFiles)` loop (upload-lambda.js lines
105-179): first qualifying candidate returns, failures continue.  Also
returns the metadata `GetObject` reads issued. -/
def scanJsonFiles (env : Env) (targetBucket : String) (fileSize : Int)
    (camera : String) (exif : Option ExifData) (total : Nat) :
    List String → Option DupVerdict × List StorageOp
  | [] => (none, [])
  | k :: rest =>
    let op := StorageOp.get targetBucket k
    match env.fetchJson targetBucket k with
    | .error _ =>
      let r := scanJsonFiles env targetBucket fileSize camera exif total rest
      (r.1, op :: r.2)
    | .ok meta =>
      match dupCompareOne env meta fileSize camera exif with
      | .ok (some (reason, conf)) =>
        (some { isDuplicate := true, reason := some reason, confidence := some conf,
                existingFile := some (jsReplaceFirst k ".json" ""),
                filesChecked := total }, [op])
      | _ =>
        let r := scanJsonFiles env targetBucket fileSize camera exif total rest
        (r.1, op :: r.2)

/-- `checkForDuplicates` (upload-lambda.js lines 80-192): date-bucketed
listing, then the candidate scan; every listing failure degrades to a
non-duplicate verdict. -/
def checkForDuplicates (env : Env) (targetBucket : String) (shotDate : JsDate)
    (camera : String) (fileSize : Int) (exif : Option ExifData) :
    DupVerdict × List StorageOp :=
  let dateStr := (splitChar (env.toISO shotDate) 'T').headD ""
  let searchKey := "photo-" ++ colonDotToDash dateStr
  let listOp := StorageOp.list targetBucket searchKey 100
  match env.listObjects targetBucket searchKey 100 with
  | .error e => ({ isDuplicate := false, error := some e.message }, [listOp])
  | .ok none => ({ isDuplicate := false }, [listOp])
  | .ok (some []) => ({ isDuplicate := false }, [listOp])
  | .ok (some (c :: cs)) =>
    let jsonFiles := (c :: cs).filter (fun k => strEndsWith k ".json")
    match scanJsonFiles env targetBucket fileSize camera exif jsonFiles.length jsonFiles with
    | (some v, ops) => (v, listOp :: ops)
    | (none, ops) =>
      ({ isDuplicate := false, filesChecked := jsonFiles.length,
         searchKey := some searchKey }, listOp :: ops)

/-- Return value of `handleDuplicateFile`. -/
structure DupHandling where
  action : String
  location : Option String := none
  error : Option String := none
deriving Repr, DecidableEq

/-- `handleDuplicateFile` (upload-lambda.js lines 197-267): executes the
configured disposition; any storage failure is caught and reported in the
return value, never thrown.  Both `new Date()` calls happen within the same
invocation and are modelled by `env.now`. -/
def handleDuplicateFile (env : Env) (sourceBucket key targetBucket : String)
    (verdict : DupVerdict) (duplicateAction duplicatesPfx : String) :
    DupHandling × List StorageOp :=
  let timestamp := isoTimestampSlug (env.toISO env.now)
  let originalFilename := (splitChar key '/').getLastD ""
  let act := lowerStr duplicateAction
  if act = "replace" then
    let op := StorageOp.del sourceBucket key
    match env.deleteObject sourceBucket key with
    | .error e => ({ action := "error", error := some e.message }, [op])
    | .ok _ => ({ action := "replace", location := verdict.existingFile }, [op])
  else if act = "delete" then
    let op := StorageOp.del sourceBucket key
    match env.deleteObject sourceBucket key with
    | .error e => ({ action := "error", error := some e.message }, [op])
    | .ok _ => ({ action := "deleted", location := none }, [op])
  else if act = "move" then
    let duplicateKey := duplicatesPfx ++ timestamp ++ "-" ++ originalFilename
    let copySource := sourceBucket ++ "/" ++ env.encodeURI key
    let tags : List (String × Option String) :=
      [("original-key", some key), ("original-bucket", some sourceBucket),
       ("duplicate-reason", verdict.reason),
       ("duplicate-confidence", verdict.confidence),
       ("existing-file", verdict.existingFile),
       ("detected-at", some (env.toISO env.now))]
    let cop := StorageOp.copy targetBucket duplicateKey copySource tags
    match env.copyObject targetBucket duplicateKey copySource with
    | .error e => ({ action := "error", error := some e.message }, [cop])
    | .ok _ =>
      match env.deleteObject sourceBucket key with
      | .error e =>
        ({ action := "error", error := some e.message },
         [cop, StorageOp.del sourceBucket key])
      | .ok _ =>
        ({ action := "moved", location := some duplicateKey },
         [cop, StorageOp.del sourceBucket key])
  else ({ action := "kept", location := some key }, [])

/-- `handleDuplicatesIfNeeded` (upload-lambda.js lines 450-463): scan, then
disposition; every disposition except the literal `"replace"` terminates the
job by throwing `duplicate_detected`. -/
def handleDuplicatesIfNeeded (env : Env) (cfg : Config)
    (sourceBucket key targetBucket : String) (shotDate : JsDate)
    (camera : String) (actualFileSize : Nat) (exif : Option ExifData) :
    Except JsError Unit × List StorageOp :=
  if cfg.checkDuplicates = false then (.ok (), [])
  else
    let scan := checkForDuplicates env targetBucket shotDate camera
      (actualFileSize : Int) exif
    if scan.1.isDuplicate then
      let dup := handleDuplicateFile env sourceBucket key targetBucket scan.1
        cfg.duplicateAction cfg.duplicatesPfx
      if cfg.duplicateAction ≠ "replace" then
        (.error ⟨"duplicate_detected", none⟩, scan.2 ++ dup.2)
      else (.ok (), scan.2 ++ dup.2)
    else (.ok (), scan.2)

/-- `processImageVariants` (upload-lambda.js lines 465-479): the four resize
tasks race against a shared timeout.  A fired timeout rejects with
`Image processing timeout`; otherwise the first failing task's error
surfaces (modelled in task order). -/
def processImageVariants (env : Env) (imageBuffer : Buf) :
    Except JsError (Buf × Buf × Buf × Buf) :=
  if env.processingTimedOut then .error ⟨"Image processing timeout", none⟩
  else do
    let large ← env.resize 1920 1920 85 imageBuffer
    let medium ← env.resize 800 800 80 imageBuffer
    let small ← env.resize 400 400 75 imageBuffer
    let thumb ← env.resize 150 150 70 imageBuffer
    return (large, medium, small, thumb)

/-- `buildPhotoPath` (upload-lambda.js lines 533-537).  Note the source never
uses its `baseName` parameter: for `original` the result is the bare folder,
for the other tiers it is `<folder>_<label>.jpg`. -/
def buildPhotoPath (photoFolder baseName sizeLabel : String) : String :=
  let sizeSuffix := if sizeLabel = "original" then "" else "_" ++ sizeLabel
  let extension := if sizeLabel = "original" then "" else ".jpg"
  let _ := baseName
  photoFolder ++ sizeSuffix ++ extension

/-- The `versions` map of a `ProcessedRecord`, in insertion order. -/
structure VersionPaths where
  original : String
  large : String
  medium : String
  small : String
  thumb : String
deriving Repr, DecidableEq

/-- `Object.values(metadata.versions)` (insertion order). -/
def VersionPaths.values (v : VersionPaths) : List String :=
  [v.original, v.large, v.medium, v.small, v.thumb]

/-- `originalDimensions` of the persisted record. -/
structure StoredDims where
  width : Option Int
  height : Option Int
  format : String
deriving Repr, DecidableEq

/-- The persisted metadata document built by `buildMetadata`
(upload-lambda.js lines 481-502). -/
structure PhotoMetadata where
  photoFolder : String
  originalKey : String
  newBaseName : String
  timestamp : String
  camera : String
  fileSize : Nat
  originalDimensions : StoredDims
  exifData : Option (Option String × Option String)
  processedAt : String
  versions : VersionPaths
deriving Repr, DecidableEq

/-- `buildMetadata` minus its `sharp().metadata()` probe, whose outcome is
passed in as `imageMetadata` (the probe itself is issued by the pipeline,
see `runPipeline`).  The unused `isUsingSeparateBucket` parameter of the
source is dropped. -/
def buildMetadata (env : Env) (key baseName : String) (shotDate : JsDate)
    (camera : String) (original : S3GetResult) (imageBuffer : Buf)
    (exif : Option ExifData) (ext : String) (imageMetadata : ImgMeta) :
    PhotoMetadata :=
  let photoFolder := baseName ++ "/"
  { photoFolder := photoFolder
    originalKey := key
    newBaseName := baseName
    timestamp := env.toISO shotDate
    camera := camera
    fileSize := jsOrNat original.ContentLength imageBuffer.length
    originalDimensions := ⟨imageMetadata.width, imageMetadata.height, ext⟩
    exifData := exif.map (fun e => (e.tags.Make, e.tags.Model))
    processedAt := env.toISO env.now
    versions := ⟨buildPhotoPath photoFolder baseName "original",
                 buildPhotoPath photoFolder baseName "large",
                 buildPhotoPath photoFolder baseName "medium",
                 buildPhotoPath photoFolder baseName "small",
                 buildPhotoPath photoFolder baseName "thumb"⟩ }

/-- The six destination keys written by `uploadAllFiles`
(upload-lambda.js lines 504-524), in source order. -/
def uploadKeys (photoFolder baseName ext : String) : List String :=
  [photoFolder ++ baseName ++ "." ++ ext,
   buildPhotoPath photoFolder baseName "large",
   buildPhotoPath photoFolder baseName "medium",
   buildPhotoPath photoFolder baseName "small",
   buildPhotoPath photoFolder baseName "thumb",
   photoFolder ++ baseName ++ ".json"]

/-- `uploadAllFiles`: all six puts are issued concurrently (each retried);
`Promise.all` surfaces the first rejection, modelled in list order.  Bodies
and content types are elided from the trace. -/
def uploadAllFiles (env : Env) (targetBucket photoFolder baseName ext : String) :
    Except JsError Unit × List StorageOp :=
  let keys := uploadKeys photoFolder baseName ext
  let ops := keys.map (fun k => StorageOp.put targetBucket k)
  match keys.findSome? (fun k =>
      match env.putObject targetBucket k with
      | .error e => some e
      | .ok _ => none) with
  | some e => (.error e, ops)
  | none => (.ok (), ops)

/-- `processingMetrics` of a success response (wall-clock durations are not
modelled and are 0). -/
structure ProcessingMetrics where
  totalTimeMs : Nat
  downloadTimeMs : Nat
  processingTimeMs : Nat
  uploadTimeMs : Nat
  originalSizeMB : String
deriving Repr, DecidableEq

/-- The success response object (upload-lambda.js lines 539-554). -/
structure SuccessResponse where
  status : String
  baseName : String
  originalKey : String
  processedFiles : List String
  metadata : String
  processingMetrics : ProcessingMetrics
deriving Repr, DecidableEq

/-- `buildSuccessResponse`. -/
def buildSuccessResponse (baseName key : String) (md : PhotoMetadata)
    (actualFileSize : Nat) : SuccessResponse :=
  { status := "success"
    baseName := baseName
    originalKey := key
    processedFiles := md.versions.values
    metadata := md.photoFolder ++ baseName ++ ".json"
    processingMetrics := ⟨0, 0, 0, 0, mbString actualFileSize⟩ }

/-- The error response object (upload-lambda.js lines 568-578). -/
structure ErrorResponse where
  status : String
  error : String
  errorCode : String
  errorCategory : String
  processingPhase : String
  originalKey : String
  processingTimeMs : Nat
deriving Repr, DecidableEq

/-- The regex cascade of `handleError` (upload-lambda.js lines 560-566):
the category is chosen by substring-matching the error *message*. -/
def errorCategoryOf (msg : String) : String :=
  if strHasSub msg "getObject" || strHasSub msg "download" then "s3_download"
  else if strHasSub msg "Sharp" || strHasSub msg "resize" || strHasSub msg "image" then "image_processing"
  else if strHasSub msg "putObject" || strHasSub msg "upload" then "s3_upload"
  else if strHasSub msg "EXIF" then "exif_parsing"
  else if strHasSub msg "timeout" then "timeout"
  else if strHasSub msg "memory" || strHasSub msg "size" then "resource_limit"
  else "unknown"

/-- `handleError` (upload-lambda.js lines 556-579). -/
def handleError (e : JsError) (processingPhase key : String) : ErrorResponse :=
  { status := "error"
    error := e.message
    errorCode := jsOrStr e.code "UNKNOWN"
    errorCategory := errorCategoryOf e.message
    processingPhase := processingPhase
    originalKey := jsOrStr (some key) "unknown"
    processingTimeMs := 0 }

/-- The handler's return value: the success object or the error object. -/
inductive HandlerResult where
  | success (r : SuccessResponse)
  | failure (r : ErrorResponse)
deriving Repr, DecidableEq

/-- The `status` field of the returned object. -/
def HandlerResult.status : HandlerResult → String
  | .success r => r.status
  | .failure r => r.status

/-- An exception leaving the `try` block: the error together with the
`processingPhase` marker and `key` variable at throw time. -/
structure PipelineError where
  err : JsError
  phase : String
  key : String
deriving Repr, DecidableEq

/-- The `try` block of the handler (upload-lambda.js lines 284-330):
the linear phase pipeline.  `processingPhase` is updated exactly where the
source updates it — in particular a `validateEvent` throw still carries
`initialization`, and the duplicate branch still carries `exif_parsing`. -/
def runPipeline (env : Env) (cfg : Config) (event : S3Event) :
    Except PipelineError SuccessResponse × List StorageOp :=
  match validateEvent env event with
  | .error e => (.error ⟨e, "initialization", "unknown"⟩, [])
  | .ok v =>
    match resolveBucketMapping cfg v.sourceBucket v.key v.fileSize with
    | .error e => (.error ⟨e, "validation", v.key⟩, [])
    | .ok tgt =>
      match downloadImage env v.sourceBucket v.key with
      | (.error e, ops) => (.error ⟨e, "download", v.key⟩, ops)
      | (.ok dl, ops0) =>
        let pe := parseExif (env.exifParse dl.imageBuffer)
        let bs := generateBaseName env pe.exifDate pe.camera
        match handleDuplicatesIfNeeded env cfg v.sourceBucket v.key
            tgt.targetBucket bs.2 pe.camera dl.actualFileSize pe.exif with
        | (.error e, ops1) => (.error ⟨e, "exif_parsing", v.key⟩, ops0 ++ ops1)
        | (.ok _, ops1) =>
          match processImageVariants env dl.imageBuffer with
          | .error e => (.error ⟨e, "image_processing", v.key⟩, ops0 ++ ops1)
          | .ok _ =>
            match env.sharpMeta dl.imageBuffer with
            | .error e => (.error ⟨e, "image_processing", v.key⟩, ops0 ++ ops1)
            | .ok im =>
              let md := buildMetadata env v.key bs.1 bs.2 pe.camera dl.original
                dl.imageBuffer pe.exif v.ext im
              match uploadAllFiles env tgt.targetBucket md.photoFolder bs.1 v.ext with
              | (.error e, ops2) => (.error ⟨e, "upload", v.key⟩, ops0 ++ ops1 ++ ops2)
              | (.ok _, ops2) =>
                (.ok (buildSuccessResponse bs.1 v.key md dl.actualFileSize),
                 ops0 ++ ops1 ++ ops2)

/-- `exports.handler` (upload-lambda.js lines 276-334): the `try`/`catch` —
every escaping exception is converted by `handleError` into the error-shaped
response. -/
def handler (env : Env) (cfg : Config) (event : S3Event) :
    HandlerResult × List StorageOp :=
  match runPipeline env cfg event with
  | (.error pe, ops) => (.failure (handleError pe.err pe.phase pe.key), ops)
  | (.ok r, ops) => (.success r, ops)

/-- Execution trace of `retryWithBackoff`: the final settlement (`none` only
on the unreachable fuel exhaustion), the backoff delays slept, and the number
of attempts made. -/
structure RetryTrace (ε α : Type) where
  result : Option (Except ε α)
  delays : List Nat
  attempts : Nat
deriving Repr

/-- The `for (attempt = a; attempt <= maxRetries; ...)` loop of
`retryWithBackoff` (upload-lambda.js lines 19-34), with the attempt outcomes
given by `fn` and `Math.random() * 1000` at attempt `i` given by `jitter i`.
Structural fuel bounds the iteration count; `retryWithBackoff` supplies
enough for the whole loop. -/
def retryFrom (fn : Nat → Except ε α) (jitter : Nat → Nat)
    (maxRetries baseDelay : Nat) : Nat → Nat → RetryTrace ε α
  | 0, _ => ⟨none, [], 0⟩
  | fuel + 1, a =>
    if a ≤ maxRetries then
      match fn a with
      | .ok v => ⟨some (.ok v), [], 1⟩
      | .error err =>
        if a = maxRetries then ⟨some (.error err), [], 1⟩
        else
          let t := retryFrom fn jitter maxRetries baseDelay fuel (a + 1)
          ⟨t.result, (baseDelay * 2 ^ (a - 1) + jitter a) :: t.delays, t.attempts + 1⟩
    else ⟨none, [], 0⟩

/-- `retryWithBackoff(fn, maxRetries, baseDelay)`. -/
def retryWithBackoff (fn : Nat → Except ε α) (jitter : Nat → Nat)
    (maxRetries baseDelay : Nat) : RetryTrace ε α :=
  retryFrom fn jitter maxRetries baseDelay maxRetries 1

/-- Concrete environment whose storage read fails (used to evaluate the model
on specific inputs). -/
def envStub : Env :=
  { now := ⟨0⟩
    toISO := fun d => if d.epochMs = 1000 then "1970-01-01T00:00:01.000Z"
                      else "1970-01-01T00:00:00.000Z"
    decodeURI := fun s => s
    encodeURI := fun s => s
    getObject := fun _ _ => .error ⟨"getObject failed", none⟩
    listObjects := fun _ _ _ => .ok (some [])
    fetchJson := fun _ _ => .error ⟨"no such key", none⟩
    exifParse := fun _ => .error ⟨"no exif data", none⟩
    resize := fun _ _ _ b => .ok b
    processingTimedOut := false
    sharpMeta := fun _ => .ok {}
    copyObject := fun _ _ _ => .ok ()
    deleteObject := fun _ _ => .ok ()
    putObject := fun _ _ => .ok () }

/-- `envStub` with a different clock (same `toISO` capability). -/
def envStub2 : Env := { envStub with now := ⟨5⟩ }

/-- The default configuration. -/
def cfgDefault : Config := {}

/-- Configuration with the `move` duplicate disposition. -/
def cfgMove : Config := { duplicateAction := "move" }

/-- A single-record trigger event. -/
def mkEvent (bucket key : String) (size : Nat) : S3Event :=
  { Records := some [{ s3 := some { bucket := some ⟨bucket⟩,
                                    object := some { key := key, size := some size } } }] }

/-- Concrete EXIF data of an incoming image. -/
def exifDup : ExifData :=
  { tags := { DateTimeOriginal := some 1, Make := some "Canon EOS" },
    imageSize := some ⟨100, 50⟩ }

/-- A candidate metadata record that matches `exifDup` exactly (size within
1KB, same timestamp, same camera up to case, same dimensions). -/
def metaDup : MetaRecord :=
  { fileSize := 5500
    camera := some "Canon EOS"
    exifData := some { make := some "CANON eos",
                       dateTimeOriginal := some "1970-01-01T00:00:01.000Z" }
    originalDimensions := some ⟨100, 50⟩ }

/-- Environment in which the download succeeds and the duplicate scan finds
`metaDup` as the second candidate (the first candidate's metadata is
unreadable). -/
def envDup : Env :=
  { envStub with
    getObject := fun _ _ => .ok { Body := some [9, 9, 9],
                                  ContentType := some "image/jpeg",
                                  ContentLength := some 5000 }
    exifParse := fun _ => .ok exifDup
    listObjects := fun _ _ _ => .ok (some ["notes.txt", "photo-a.json", "photo-b.json"])
    fetchJson := fun _ k => if k = "photo-b.json" then .ok metaDup
                            else .error ⟨"corrupt metadata", none⟩ }

/-- Error sequence of a storage operation that fails on every attempt. -/
def retryErrA : Nat → String := fun i => "boom " ++ toString i

/-- A storage operation failing on every attempt. -/
def retryFnA : Nat → Except String Nat := fun i => .error (retryErrA i)

/-- A storage operation failing on attempt 1 and succeeding from attempt 2. -/
def retryFnB : Nat → Except String Nat := fun i =>
  if i = 1 then .error (retryErrA i) else .ok 42

/-- A concrete jitter sequence. -/
def jitterA : Nat → Nat := fun i => 7 * i

/-- Every successful pipeline run was built by `buildSuccessResponse`, so its
status field is the literal `success`. -/
theorem runPipeline_ok_status (env : Env) (cfg : Config) (event : S3Event)
    (r : SuccessResponse) (ops : List StorageOp)
    (h : runPipeline env cfg event = (.ok r, ops)) : r.status = "success" := by
  simp only [runPipeline] at h
  repeat' split at h
  all_goals injection h with h1 h2
  all_goals try exact Except.noConfusion h1
  all_goals injection h1 with h3
  all_goals subst h3
  all_goals rfl

/-- Every failing pipeline run records one of the six phase markers the
source assigns. -/
theorem runPipeline_error_phase (env : Env) (cfg : Config) (event : S3Event)
    (pe : PipelineError) (ops : List StorageOp)
    (h : runPipeline env cfg event = (.error pe, ops)) :
    pe.phase ∈ (["initialization", "validation", "download", "exif_parsing",
                 "image_processing", "upload"] : List String) := by
  simp only [runPipeline] at h
  repeat' split at h
  all_goals injection h with h1 h2
  all_goals try exact Except.noConfusion h1
  all_goals injection h1 with h3
  all_goals subst h3
  all_goals simp

/-- Claim C1: the derived base name is a pure function of the pair (capture
timestamp if present, otherwise the current time; camera name): identical
inputs yield the identical string, of the form
`photo-<timestamp>-<camera_with_underscores>`, and this string is also the
destination folder key (the record's `photoFolder` is exactly the base name
followed by the path separator). -/
theorem c1_baseName_pure (env₁ env₂ : Env) (d₁ d₂ : Option JsDate)
    (camera key ext : String) (orig : S3GetResult) (buf : Buf)
    (exif : Option ExifData) (im : ImgMeta)
    (hIso : env₁.toISO = env₂.toISO)
    (hDate : d₁.getD env₁.now = d₂.getD env₂.now) :
    (generateBaseName env₁ d₁ camera).1 = (generateBaseName env₂ d₂ camera).1
    ∧ (generateBaseName env₁ d₁ camera).1 =
        "photo-" ++ isoTimestampSlug (env₁.toISO (d₁.getD env₁.now)) ++ "-"
          ++ underscoreWs camera
    ∧ (buildMetadata env₁ key (generateBaseName env₁ d₁ camera).1
          (generateBaseName env₁ d₁ camera).2 camera orig buf exif ext
          im).photoFolder
        = (generateBaseName env₁ d₁ camera).1 ++ "/" := by
  refine ⟨?_, rfl, rfl⟩
  simp only [generateBaseName, hIso, hDate]

/-- Witness for C1 at concrete inputs: one call passes the capture date, the
other relies on a clock already equal to it; the results agree and have the
stated shape. -/
theorem c1_baseName_pure_witness :
    (generateBaseName envStub (some ⟨5⟩) "My Fine Cam").1
      = (generateBaseName envStub2 none "My Fine Cam").1
    ∧ (generateBaseName envStub (some ⟨5⟩) "My Fine Cam").1 =
        "photo-" ++ isoTimestampSlug (envStub.toISO ((some (JsDate.mk 5)).getD envStub.now))
          ++ "-" ++ underscoreWs "My Fine Cam"
    ∧ (buildMetadata envStub "k" (generateBaseName envStub (some ⟨5⟩) "My Fine Cam").1
          (generateBaseName envStub (some ⟨5⟩) "My Fine Cam").2 "My Fine Cam" {} []
          none "jpg" {}).photoFolder
        = (generateBaseName envStub (some ⟨5⟩) "My Fine Cam").1 ++ "/" :=
  c1_baseName_pure envStub envStub2 (some ⟨5⟩) none "My Fine Cam" "k" "jpg"
    {} [] none {} rfl rfl

/-- Claim C4 counterexample: for the key `a.gif` (extension outside the
supported set) the returned result has status `error` — not `skipped` with
reason `unsupported_format` — carrying the thrown message. -/
theorem c4_counterexample :
    (handler envStub cfgDefault (mkEvent "b" "a.gif" 1000)).1 =
      .failure { status := "error", error := "Unsupported file format: gif",
                 errorCode := "UNKNOWN", errorCategory := "unknown",
                 processingPhase := "initialization", originalKey := "unknown",
                 processingTimeMs := 0 }
    ∧ (handler envStub cfgDefault (mkEvent "b" "a.gif" 1000)).1.status ≠ "skipped" := by
  exact ⟨rfl, by decide⟩

/-- Claim C4 (amended): a job whose extension is unsupported is rejected by
`validateEvent`; the invocation returns the error-shaped result (status
`error`, message `Unsupported file format: <ext>`, phase `initialization`,
original key reported as `unknown`) and performs no storage operation. -/
theorem c4_amended (env : Env) (cfg : Config) (event : S3Event) (ext : String)
    (hval : validateEvent env event =
      .error ⟨"Unsupported file format: " ++ ext, none⟩) :
    handler env cfg event =
      (.failure (handleError ⟨"Unsupported file format: " ++ ext, none⟩
        "initialization" "unknown"), []) := by
  simp only [handler, runPipeline, hval]

/-- Witness for C4 (amended) at the concrete key `a.gif`. -/
theorem c4_amended_witness :
    handler envStub cfgDefault (mkEvent "b" "a.gif" 1000) =
      (.failure (handleError ⟨"Unsupported file format: " ++ "gif", none⟩
        "initialization" "unknown"), []) :=
  c4_amended envStub cfgDefault (mkEvent "b" "a.gif" 1000) "gif" rfl

/-- Claim C5 counterexample: the category is computed from the error message,
not the phase marker: an error thrown in phase `upload` whose message mentions
`getObject` is categorised `s3_download`, a value outside the claim's category
enumeration, while a different message at the same phase gets a different
category. -/
theorem c5_counterexample :
    (handleError ⟨"getObject exploded", none⟩ "upload" "k").errorCategory = "s3_download"
    ∧ "s3_download" ∉ (["validation", "source_download", "metadata_parsing",
        "duplicate_check", "image_processing", "upload", "timeout",
        "resource_limit", "unknown"] : List String)
    ∧ (handleError ⟨"getObject exploded", none⟩ "upload" "k").errorCategory
        ≠ (handleError ⟨"resize exploded", none⟩ "upload" "k").errorCategory := by
  exact ⟨rfl, by decide, by decide⟩

/-- Claim C5 (amended): every pipeline exception is caught once at the top
and converted to an error-shaped result; its category is chosen by
substring-matching the error message into {s3_download, image_processing,
s3_upload, exif_parsing, timeout, resource_limit, unknown} — independent of
the phase marker, which is reported separately in `processingPhase` and is
always one of the six recorded markers. -/
theorem c5_amended (e : JsError) (p p' k : String) (env : Env) (cfg : Config)
    (event : S3Event) (r : ErrorResponse)
    (hr : (handler env cfg event).1 = .failure r) :
    (handleError e p k).errorCategory = (handleError e p' k).errorCategory
    ∧ (handleError e p k).errorCategory = errorCategoryOf e.message
    ∧ (handleError e p k).processingPhase = p
    ∧ (handleError e p k).errorCategory ∈
        (["s3_download", "image_processing", "s3_upload", "exif_parsing",
          "timeout", "resource_limit", "unknown"] : List String)
    ∧ r.errorCategory = errorCategoryOf r.error
    ∧ r.status = "error"
    ∧ r.processingPhase ∈
        (["initialization", "validation", "download", "exif_parsing",
          "image_processing", "upload"] : List String) := by
  have hclass : ∀ msg : String, errorCategoryOf msg ∈
      (["s3_download", "image_processing", "s3_upload", "exif_parsing",
        "timeout", "resource_limit", "unknown"] : List String) := by
    intro msg
    unfold errorCategoryOf
    split_ifs <;> simp
  have hsrc : ∃ pe ops, runPipeline env cfg event = (.error pe, ops)
      ∧ r = handleError pe.err pe.phase pe.key := by
    unfold handler at hr
    rcases hrp : runPipeline env cfg event with ⟨res, ops⟩
    rw [hrp] at hr
    cases res with
    | ok rr => exact absurd hr (by simp)
    | error pe =>
      refine ⟨pe, ops, rfl, ?_⟩
      have hr' : HandlerResult.failure (handleError pe.err pe.phase pe.key)
          = .failure r := hr
      injection hr' with h1
      exact h1.symm
  obtain ⟨pe, ops, hrp, hre⟩ := hsrc
  subst hre
  exact ⟨rfl, rfl, rfl, hclass e.message, rfl, rfl,
    runPipeline_error_phase env cfg event pe ops hrp⟩

/-- Witness for C5 (amended) at a concrete failing invocation (the storage
read fails, so the pipeline fails in phase `download`). -/
theorem c5_amended_witness :
    (handleError ⟨"putObject refused", none⟩ "upload" "k").errorCategory
      = (handleError ⟨"putObject refused", none⟩ "download" "k").errorCategory
    ∧ (handleError ⟨"putObject refused", none⟩ "upload" "k").errorCategory
      = errorCategoryOf (JsError.mk "putObject refused" none).message
    ∧ (handleError ⟨"putObject refused", none⟩ "upload" "k").processingPhase = "upload"
    ∧ (handleError ⟨"putObject refused", none⟩ "upload" "k").errorCategory ∈
        (["s3_download", "image_processing", "s3_upload", "exif_parsing",
          "timeout", "resource_limit", "unknown"] : List String)
    ∧ (ErrorResponse.mk "error" "getObject failed" "UNKNOWN" "s3_download"
        "download" "x.jpg" 0).errorCategory
      = errorCategoryOf (ErrorResponse.mk "error" "getObject failed" "UNKNOWN"
          "s3_download" "download" "x.jpg" 0).error
    ∧ (ErrorResponse.mk "error" "getObject failed" "UNKNOWN" "s3_download"
        "download" "x.jpg" 0).status = "error"
    ∧ (ErrorResponse.mk "error" "getObject failed" "UNKNOWN" "s3_download"
        "download" "x.jpg" 0).processingPhase ∈
        (["initialization", "validation", "download", "exif_parsing",
          "image_processing", "upload"] : List String) :=
  c5_amended ⟨"putObject refused", none⟩ "upload" "download" "k" envStub
    cfgDefault (mkEvent "b" "x.jpg" 10)
    (ErrorResponse.mk "error" "getObject failed" "UNKNOWN" "s3_download"
      "download" "x.jpg" 0) rfl

/-- Claim C9: the code contradicts the documented layout and its own tests.
`buildPhotoPath` never uses `baseName`: the recorded `versions.original`
path is the bare folder (which is not a key that gets written), the
renditions are written as `_<label>.jpg` rather than `<label>.<ext>`, and
the original is renamed to `<baseName>.<ext>` instead of keeping its source
filename (here `DSC003344.JPG`). -/
theorem c9_code_bug :
    buildPhotoPath "photo-X/" "photo-X" "original" = "photo-X/"
    ∧ buildPhotoPath "photo-X/" "photo-X" "large" = "photo-X/_large.jpg"
    ∧ uploadKeys "photo-X/" "photo-X" "jpg" =
        ["photo-X/photo-X.jpg", "photo-X/_large.jpg", "photo-X/_medium.jpg",
         "photo-X/_small.jpg", "photo-X/_thumb.jpg", "photo-X/photo-X.json"]
    ∧ (buildMetadata envStub "photos/DSC003344.JPG" "photo-X" ⟨0⟩ "Canon" {}
        [] none "jpg" {}).versions.original ∉ uploadKeys "photo-X/" "photo-X" "jpg"
    ∧ "photo-X/DSC003344.JPG" ∉ uploadKeys "photo-X/" "photo-X" "jpg" := by
  exact ⟨rfl, rfl, rfl, by decide, by decide⟩

/-- Claim C2 counterexample: a key under the quarantine stem
(`duplicates/a.jpg`) produces a result with status `error`, not `skipped`
(though indeed with an empty operation trace), and a key inside a
destination-output folder (`photo-folder/_large.jpg`) is not stopped at all —
the pipeline proceeds to the download (here failing there), having issued a
storage read. -/
theorem c2_counterexample :
    (handler envStub cfgDefault (mkEvent "b" "duplicates/a.jpg" 1000)).1.status = "error"
    ∧ (handler envStub cfgDefault (mkEvent "b" "duplicates/a.jpg" 1000)).1.status ≠ "skipped"
    ∧ (handler envStub cfgDefault (mkEvent "b" "duplicates/a.jpg" 1000)).2 = []
    ∧ (handler envStub cfgDefault (mkEvent "b" "photo-folder/_large.jpg" 1000)).1 =
        .failure (handleError ⟨"getObject failed", none⟩ "download"
          "photo-folder/_large.jpg")
    ∧ (handler envStub cfgDefault (mkEvent "b" "photo-folder/_large.jpg" 1000)).2 =
        [StorageOp.get "b" "photo-folder/_large.jpg"] := by
  exact ⟨rfl, by decide, rfl, rfl, rfl⟩

/-- Claim C2 (amended): for a validated job whose key starts with the
duplicates-quarantine prefix (and which passes the size and allow-list gates
checked first), the pipeline stops before any storage operation: the result
has status `error` with message `already_in_duplicates` at phase
`validation`, and the operation trace is empty — in particular zero writes.
There is no corresponding check for keys under destination-output folders. -/
theorem c2_amended (env : Env) (cfg : Config) (event : S3Event)
    (v : ValidatedEvent)
    (hv : validateEvent env event = .ok v)
    (hsize : sizeExceededGate cfg v.fileSize = false)
    (hallow : sourceDisallowedGate cfg v.sourceBucket = false)
    (hkey : strStartsWith v.key cfg.duplicatesPfx = true) :
    handler env cfg event =
      (.failure (handleError ⟨"already_in_duplicates", none⟩ "validation" v.key),
       []) := by
  have hr : resolveBucketMapping cfg v.sourceBucket v.key v.fileSize =
      .error ⟨"already_in_duplicates", none⟩ := by
    unfold resolveBucketMapping
    rw [hsize, hallow, hkey]
    simp
  simp only [handler, runPipeline, hv, hr]

/-- Witness for C2 (amended) at the concrete key `duplicates/a.jpg`. -/
theorem c2_amended_witness :
    handler envStub cfgDefault (mkEvent "b" "duplicates/a.jpg" 1000) =
      (.failure (handleError ⟨"already_in_duplicates", none⟩ "validation"
        "duplicates/a.jpg"), []) :=
  c2_amended envStub cfgDefault (mkEvent "b" "duplicates/a.jpg" 1000)
    ⟨"b", "duplicates/a.jpg", some 1000, "jpg"⟩ rfl rfl rfl rfl

/-- Replacing the metadata-parse capability does not affect event
validation, which never consults it. -/
theorem validateEvent_update (env : Env) (x : Buf → Except JsError ExifData)
    (ev : S3Event) :
    validateEvent { env with exifParse := x } ev = validateEvent env ev := rfl

/-- Replacing the metadata-parse capability does not affect the download. -/
theorem downloadImage_update (env : Env) (x : Buf → Except JsError ExifData)
    (b k : String) :
    downloadImage { env with exifParse := x } b k = downloadImage env b k := rfl

/-- Replacing the metadata-parse capability does not affect base-name
generation. -/
theorem generateBaseName_update (env : Env) (x : Buf → Except JsError ExifData)
    (d : Option JsDate) (c : String) :
    generateBaseName { env with exifParse := x } d c
      = generateBaseName env d c := rfl

/-- Replacing the metadata-parse capability does not affect the candidate
comparison. -/
theorem dupCompareOne_update (env : Env) (x : Buf → Except JsError ExifData)
    (meta : MetaRecord) (fs : Int) (cam : String) (exif : Option ExifData) :
    dupCompareOne { env with exifParse := x } meta fs cam exif
      = dupCompareOne env meta fs cam exif := rfl

/-- Replacing the metadata-parse capability does not affect the duplicate
scan loop. -/
theorem scanJsonFiles_update (env : Env) (x : Buf → Except JsError ExifData)
    (tb : String) (fs : Int) (cam : String) (exif : Option ExifData)
    (total : Nat) (l : List String) :
    scanJsonFiles { env with exifParse := x } tb fs cam exif total l
      = scanJsonFiles env tb fs cam exif total l := by
  induction l with
  | nil => rfl
  | cons k rest ih =>
    simp only [scanJsonFiles]
    cases hf : env.fetchJson tb k with
    | error e => simp [hf, ih]
    | ok meta =>
      cases hc : dupCompareOne env meta fs cam exif with
      | error e2 => simp [hf, hc, dupCompareOne_update, ih]
      | ok v =>
        cases v with
        | none => simp [hf, hc, dupCompareOne_update, ih]
        | some p =>
          obtain ⟨reason, conf⟩ := p
          simp [hf, hc, dupCompareOne_update]

/-- Replacing the metadata-parse capability does not affect the duplicate
check. -/
theorem checkForDuplicates_update (env : Env) (x : Buf → Except JsError ExifData)
    (tb : String) (sd : JsDate) (cam : String) (fs : Int)
    (exif : Option ExifData) :
    checkForDuplicates { env with exifParse := x } tb sd cam fs exif
      = checkForDuplicates env tb sd cam fs exif := by
  simp only [checkForDuplicates, scanJsonFiles_update]

/-- Replacing the metadata-parse capability does not affect duplicate
disposition handling. -/
theorem handleDuplicateFile_update (env : Env) (x : Buf → Except JsError ExifData)
    (sb k tb : String) (verdict : DupVerdict) (act pfx : String) :
    handleDuplicateFile { env with exifParse := x } sb k tb verdict act pfx
      = handleDuplicateFile env sb k tb verdict act pfx := rfl

/-- Replacing the metadata-parse capability does not affect the duplicate
phase as a whole. -/
theorem handleDuplicatesIfNeeded_update (env : Env)
    (x : Buf → Except JsError ExifData) (cfg : Config) (sb k tb : String)
    (sd : JsDate) (cam : String) (afs : Nat) (exif : Option ExifData) :
    handleDuplicatesIfNeeded { env with exifParse := x } cfg sb k tb sd cam afs exif
      = handleDuplicatesIfNeeded env cfg sb k tb sd cam afs exif := by
  simp only [handleDuplicatesIfNeeded, checkForDuplicates_update,
    handleDuplicateFile_update]

/-- Replacing the metadata-parse capability does not affect rendition
generation. -/
theorem processImageVariants_update (env : Env)
    (x : Buf → Except JsError ExifData) (b : Buf) :
    processImageVariants { env with exifParse := x } b
      = processImageVariants env b := rfl

/-- Replacing the metadata-parse capability does not affect metadata
assembly. -/
theorem buildMetadata_update (env : Env) (x : Buf → Except JsError ExifData)
    (key baseName : String) (sd : JsDate) (cam : String) (orig : S3GetResult)
    (buf : Buf) (exif : Option ExifData) (ext : String) (im : ImgMeta) :
    buildMetadata { env with exifParse := x } key baseName sd cam orig buf exif ext im
      = buildMetadata env key baseName sd cam orig buf exif ext im := rfl

/-- Replacing the metadata-parse capability does not affect the uploads. -/
theorem uploadAllFiles_update (env : Env) (x : Buf → Except JsError ExifData)
    (tb pf bn ext : String) :
    uploadAllFiles { env with exifParse := x } tb pf bn ext
      = uploadAllFiles env tb pf bn ext := rfl

/-- Replacing the metadata-parse capability does not affect the dimension
probe. -/
theorem sharpMeta_update (env : Env) (x : Buf → Except JsError ExifData) :
    Env.sharpMeta { env with exifParse := x } = env.sharpMeta := rfl

/-- Claim C8: metadata-parsing failure (including the timeout race, which
surfaces as an error outcome) never fails the job: `parseExif` absorbs every
failure into camera `unknown` with no capture timestamp, and the whole
invocation result is independent of which parsing failure occurred — no
parse error is ever surfaced. -/
theorem c8_exif_absorbed (e e' : JsError) (env : Env) (cfg : Config)
    (event : S3Event) :
    parseExif (.error e) = ⟨none, none, "unknown"⟩
    ∧ handler { env with exifParse := fun _ => .error e } cfg event
        = handler { env with exifParse := fun _ => .error e' } cfg event := by
  refine ⟨rfl, ?_⟩
  have habs : ∀ er : JsError,
      parseExif (Except.error er) = (⟨none, none, "unknown"⟩ : ParsedExif) :=
    fun _ => rfl
  unfold handler runPipeline
  simp only [validateEvent_update, downloadImage_update,
    handleDuplicatesIfNeeded_update, processImageVariants_update,
    generateBaseName_update, buildMetadata_update, uploadAllFiles_update,
    sharpMeta_update, habs]

/-- Anatomy of the retry loop from attempt `a` when every attempt up to the
retry bound fails: it performs the remaining attempts, sleeps the exponential
backoff after each non-final one, and settles on the final attempt's error. -/
theorem retryFrom_allfail {ε α : Type} (fn : Nat → Except ε α)
    (jitter : Nat → Nat) (N base : Nat) (e : Nat → ε) :
    ∀ fuel a, 1 ≤ a → a ≤ N → N - a < fuel →
      (∀ i, a ≤ i → i ≤ N → fn i = .error (e i)) →
      retryFrom fn jitter N base fuel a =
        ⟨some (.error (e N)),
         (List.range' a (N - a)).map (fun i => base * 2 ^ (i - 1) + jitter i),
         N - a + 1⟩ := by
  intro fuel
  induction fuel with
  | zero => intro a _ _ hlt _; omega
  | succ fuel ih =>
    intro a ha haN hlt hf
    simp only [retryFrom]
    rw [if_pos haN, hf a le_rfl haN]
    dsimp only
    by_cases haeq : a = N
    · subst haeq
      rw [if_pos rfl]
      simp [List.range']
    · rw [if_neg haeq]
      rw [ih (a + 1) (by omega) (by omega) (by omega)
        (fun i h1 h2 => hf i (by omega) h2)]
      have hNa : N - a = (N - (a + 1)) + 1 := by omega
      rw [hNa, List.range'_succ, List.map_cons]

/-- Anatomy of the retry loop from attempt `a` when attempts before `k` fail
and attempt `k` succeeds: it stops at attempt `k` and returns its result. -/
theorem retryFrom_success {ε α : Type} (fn : Nat → Except ε α)
    (jitter : Nat → Nat) (N base k : Nat) (e : Nat → ε) (r : α) :
    ∀ fuel a, 1 ≤ a → a ≤ k → k ≤ N → k - a < fuel →
      (∀ i, a ≤ i → i < k → fn i = .error (e i)) → fn k = .ok r →
      retryFrom fn jitter N base fuel a =
        ⟨some (.ok r),
         (List.range' a (k - a)).map (fun i => base * 2 ^ (i - 1) + jitter i),
         k - a + 1⟩ := by
  intro fuel
  induction fuel with
  | zero => intro a _ _ _ hlt _ _; omega
  | succ fuel ih =>
    intro a ha hak hkN hlt hf hk
    simp only [retryFrom]
    rw [if_pos (show a ≤ N by omega)]
    by_cases haeq : a = k
    · subst haeq
      rw [hk]
      simp [List.range']
    · rw [hf a le_rfl (by omega)]
      dsimp only
      rw [if_neg (show a ≠ N by omega)]
      rw [ih (a + 1) (by omega) (by omega) hkN (by omega)
        (fun i h1 h2 => hf i (by omega) h2) hk]
      have hka : k - a = (k - (a + 1)) + 1 := by omega
      rw [hka, List.range'_succ, List.map_cons]

/-- Claim C7: a storage operation wrapped with maximum attempt count N either
fails on all N attempts — then the wrapper performs exactly N attempts
separated by N−1 backoff delays, each the exponentially-doubling base term
plus that attempt's jitter, and rethrows the final attempt's error unchanged
— or first succeeds at attempt k ≤ N, in which case that result is returned
after exactly k attempts and no further attempts occur. -/
theorem c7_retry :
    (∀ (ε α : Type) (fn : Nat → Except ε α) (jitter : Nat → Nat)
        (N base : Nat) (e : Nat → ε),
      1 ≤ N → (∀ i, 1 ≤ i → i ≤ N → fn i = .error (e i)) →
      retryWithBackoff fn jitter N base =
        ⟨some (.error (e N)),
         (List.range' 1 (N - 1)).map (fun i => base * 2 ^ (i - 1) + jitter i),
         N⟩)
    ∧ (∀ (ε α : Type) (fn : Nat → Except ε α) (jitter : Nat → Nat)
        (N base k : Nat) (e : Nat → ε) (r : α),
      1 ≤ k → k ≤ N → (∀ i, 1 ≤ i → i < k → fn i = .error (e i)) →
      fn k = .ok r →
      retryWithBackoff fn jitter N base =
        ⟨some (.ok r),
         (List.range' 1 (k - 1)).map (fun i => base * 2 ^ (i - 1) + jitter i),
         k⟩) := by
  constructor
  · intro ε α fn jitter N base e hN hf
    unfold retryWithBackoff
    rw [retryFrom_allfail fn jitter N base e N 1 le_rfl hN (by omega) hf]
    congr 1
    omega
  · intro ε α fn jitter N base k e r hk hkN hf hok
    unfold retryWithBackoff
    rw [retryFrom_success fn jitter N base k e r N 1 le_rfl hk hkN (by omega) hf hok]
    congr 1
    omega

/-- Witness for C7: a three-attempt wrapper around an always-failing
operation settles on attempt 3's error after two growing delays; around an
operation succeeding at attempt 2 it returns that success after one delay. -/
theorem c7_retry_witness :
    retryWithBackoff retryFnA jitterA 3 1000 =
      ⟨some (.error (retryErrA 3)),
       (List.range' 1 2).map (fun i => 1000 * 2 ^ (i - 1) + jitterA i), 3⟩
    ∧ retryWithBackoff retryFnB jitterA 3 1000 =
      ⟨some (.ok 42),
       (List.range' 1 1).map (fun i => 1000 * 2 ^ (i - 1) + jitterA i), 2⟩ :=
  ⟨c7_retry.1 String Nat retryFnA jitterA 3 1000 retryErrA (by decide)
      (fun i h1 h2 => rfl),
   c7_retry.2 String Nat retryFnB jitterA 3 1000 2 retryErrA 42 (by decide)
      (by decide)
      (fun i h1 h2 => by
        have hi : i = 1 := by omega
        subst hi
        rfl)
      rfl⟩

/-- The download phase issues exactly one storage read. -/
theorem downloadImage_ops (env : Env) (b k : String) :
    (downloadImage env b k).2 = [StorageOp.get b k] := by
  unfold downloadImage
  repeat' split
  all_goals rfl

/-- The duplicate-scan loop issues only reads — never an upload. -/
theorem scanJsonFiles_reads (env : Env) (tb : String) (fs : Int) (cam : String)
    (exif : Option ExifData) (total : Nat) :
    ∀ (l : List String) (res : Option DupVerdict) (ops : List StorageOp),
      scanJsonFiles env tb fs cam exif total l = (res, ops) →
      (ops.all fun op => ! isPutOp op) = true := by
  intro l
  induction l with
  | nil =>
    intro res ops h
    injection h with h1 h2
    rw [← h2]
    rfl
  | cons k rest ih =>
    intro res ops h
    have hrest := ih (scanJsonFiles env tb fs cam exif total rest).1
      (scanJsonFiles env tb fs cam exif total rest).2 rfl
    simp only [scanJsonFiles] at h
    split at h
    · injection h with h1 h2
      rw [← h2]
      simpa [isPutOp] using hrest
    · split at h
      · injection h with h1 h2
        rw [← h2]
        simp [isPutOp]
      · injection h with h1 h2
        rw [← h2]
        simpa [isPutOp] using hrest

/-- The duplicate check (listing plus metadata fetches) issues only reads. -/
theorem checkForDuplicates_reads (env : Env) (tb : String) (sd : JsDate)
    (cam : String) (fs : Int) (exif : Option ExifData) :
    (((checkForDuplicates env tb sd cam fs exif).2).all fun op => ! isPutOp op)
      = true := by
  simp only [checkForDuplicates]
  split
  · rfl
  · rfl
  · rfl
  · split
    · next v ops heq =>
      have := scanJsonFiles_reads env tb fs cam exif _ _ _ _ heq
      simpa [isPutOp] using this
    · next ops heq =>
      have := scanJsonFiles_reads env tb fs cam exif _ _ _ _ heq
      simpa [isPutOp] using this

/-- Duplicate disposition handling never issues an upload (its writes are
copies and deletes only). -/
theorem handleDuplicateFile_no_put (env : Env) (sb k tb : String)
    (verdict : DupVerdict) (act pfx : String) :
    (((handleDuplicateFile env sb k tb verdict act pfx).2).all
      fun op => ! isPutOp op) = true := by
  simp only [handleDuplicateFile]
  split_ifs <;> (repeat' split) <;> rfl

/-- Claim C3 counterexample: a concrete job with a positive duplicate
verdict under the `move` disposition returns status `error` (message
`duplicate_detected`), not the claimed status `skipped`. -/
theorem c3_counterexample :
    (handler envDup cfgMove (mkEvent "src" "pics/a.jpg" 1000)).1.status = "error"
    ∧ (handler envDup cfgMove (mkEvent "src" "pics/a.jpg" 1000)).1.status
        ≠ "skipped" := by
  exact ⟨rfl, by decide⟩

/-- Claim C3 (amended): for a job on which the duplicate detector returns a
positive verdict and the configured disposition is `delete`, `move` or
`keep`, the invocation performs no rendition generation and no uploads and
returns — not a `skipped` result but — the error-shaped result with message
`duplicate_detected` (at phase `exif_parsing`); the operation trace is
exactly the download read, the scan reads and the disposition's own
operations, none of which is a put.  For `move` (with the copy and the
delete succeeding) the disposition writes a copy tagged with the match
details under the quarantine prefix and then deletes the source object. -/
theorem c3_amended (env : Env) (cfg : Config) (event : S3Event)
    (v : ValidatedEvent) (tgt : ResolvedTarget) (dl : Downloaded)
    (dops : List StorageOp) (pe : ParsedExif) (bs : String × JsDate)
    (scan : DupVerdict × List StorageOp) (dup : DupHandling × List StorageOp)
    (hv : validateEvent env event = .ok v)
    (hr : resolveBucketMapping cfg v.sourceBucket v.key v.fileSize = .ok tgt)
    (hd : downloadImage env v.sourceBucket v.key = (.ok dl, dops))
    (hpe : parseExif (env.exifParse dl.imageBuffer) = pe)
    (hbs : generateBaseName env pe.exifDate pe.camera = bs)
    (hchk : cfg.checkDuplicates = true)
    (hscan : checkForDuplicates env tgt.targetBucket bs.2 pe.camera
        (dl.actualFileSize : Int) pe.exif = scan)
    (hisdup : scan.1.isDuplicate = true)
    (hdup : handleDuplicateFile env v.sourceBucket v.key tgt.targetBucket scan.1
        cfg.duplicateAction cfg.duplicatesPfx = dup)
    (hact : cfg.duplicateAction ∈ (["delete", "move", "keep"] : List String)) :
    handler env cfg event =
      (.failure (handleError ⟨"duplicate_detected", none⟩ "exif_parsing" v.key),
       dops ++ (scan.2 ++ dup.2))
    ∧ ((dops ++ (scan.2 ++ dup.2)).all fun op => ! isPutOp op) = true
    ∧ (cfg.duplicateAction = "move" →
        env.copyObject tgt.targetBucket
          (cfg.duplicatesPfx ++ isoTimestampSlug (env.toISO env.now) ++ "-"
            ++ (splitChar v.key '/').getLastD "")
          (v.sourceBucket ++ "/" ++ env.encodeURI v.key) = .ok () →
        env.deleteObject v.sourceBucket v.key = .ok () →
        dup.2 =
          [StorageOp.copy tgt.targetBucket
            (cfg.duplicatesPfx ++ isoTimestampSlug (env.toISO env.now) ++ "-"
              ++ (splitChar v.key '/').getLastD "")
            (v.sourceBucket ++ "/" ++ env.encodeURI v.key)
            [("original-key", some v.key), ("original-bucket", some v.sourceBucket),
             ("duplicate-reason", scan.1.reason),
             ("duplicate-confidence", scan.1.confidence),
             ("existing-file", scan.1.existingFile),
             ("detected-at", some (env.toISO env.now))],
           StorageOp.del v.sourceBucket v.key]) := by
  have hact' : cfg.duplicateAction = "delete" ∨ cfg.duplicateAction = "move"
      ∨ cfg.duplicateAction = "keep" := by simpa using hact
  have hne : cfg.duplicateAction ≠ "replace" := by
    rcases hact' with h | h | h <;> rw [h] <;> decide
  refine ⟨?_, ?_, ?_⟩
  · have hdd : handleDuplicatesIfNeeded env cfg v.sourceBucket v.key
        tgt.targetBucket bs.2 pe.camera dl.actualFileSize pe.exif
        = (.error ⟨"duplicate_detected", none⟩, scan.2 ++ dup.2) := by
      simp only [handleDuplicatesIfNeeded]
      rw [hchk]
      rw [if_neg (show ¬(true = false) by decide)]
      rw [hscan, if_pos hisdup, hdup, if_pos hne]
    simp only [handler, runPipeline, hv, hr, hd, hpe, hbs, hdd]
  · have hdops : dops = [StorageOp.get v.sourceBucket v.key] := by
      have h := downloadImage_ops env v.sourceBucket v.key
      rw [hd] at h
      exact h
    have h1 : (scan.2.all fun op => ! isPutOp op) = true := by
      have h := checkForDuplicates_reads env tgt.targetBucket bs.2 pe.camera
        (dl.actualFileSize : Int) pe.exif
      rw [hscan] at h
      exact h
    have h2 : (dup.2.all fun op => ! isPutOp op) = true := by
      have h := handleDuplicateFile_no_put env v.sourceBucket v.key
        tgt.targetBucket scan.1 cfg.duplicateAction cfg.duplicatesPfx
      rw [hdup] at h
      exact h
    rw [hdops]
    rw [List.all_append, List.all_append, h1, h2]
    rfl
  · intro hmv hcopy hdel
    rw [hmv] at hdup
    simp only [handleDuplicateFile] at hdup
    rw [if_neg (show ¬(lowerStr "move" = "replace") by decide)] at hdup
    rw [if_neg (show ¬(lowerStr "move" = "delete") by decide)] at hdup
    rw [if_pos (show lowerStr "move" = "move" by decide)] at hdup
    rw [hcopy, hdel] at hdup
    rw [← hdup]

/-- Witness for C3 (amended) at a concrete `move` job: the duplicate scan
finds `metaDup`, the source is copied (tagged) under `duplicates/` and
deleted, and the invocation returns the error-shaped `duplicate_detected`
result without any upload. -/
theorem c3_amended_witness :
    handler envDup cfgMove (mkEvent "src" "pics/a.jpg" 1000) =
      (.failure (handleError ⟨"duplicate_detected", none⟩ "exif_parsing"
        "pics/a.jpg"),
       [StorageOp.get "src" "pics/a.jpg",
        StorageOp.list "src" "photo-1970-01-01" 100,
        StorageOp.get "src" "photo-a.json",
        StorageOp.get "src" "photo-b.json",
        StorageOp.copy "src" "duplicates/1970-01-01_00-00-00-000Z-a.jpg"
          "src/pics/a.jpg"
          [("original-key", some "pics/a.jpg"), ("original-bucket", some "src"),
           ("duplicate-reason", some "exact_match_exif_timestamp_camera_dimensions"),
           ("duplicate-confidence", some "high"),
           ("existing-file", some "photo-b"),
           ("detected-at", some "1970-01-01T00:00:00.000Z")],
        StorageOp.del "src" "pics/a.jpg"]) :=
  (c3_amended envDup cfgMove (mkEvent "src" "pics/a.jpg" 1000)
    ⟨"src", "pics/a.jpg", some 1000, "jpg"⟩ ⟨"src", false⟩
    ⟨[9, 9, 9], { Body := some [9, 9, 9], ContentType := some "image/jpeg",
                  ContentLength := some 5000 }, 5000⟩
    [StorageOp.get "src" "pics/a.jpg"]
    ⟨some exifDup, some ⟨1000⟩, "Canon EOS"⟩
    ("photo-1970-01-01_00-00-01-000Z-Canon_EOS", ⟨1000⟩)
    (checkForDuplicates envDup "src" ⟨1000⟩ "Canon EOS" 5000 (some exifDup))
    (handleDuplicateFile envDup "src" "pics/a.jpg" "src"
      (checkForDuplicates envDup "src" ⟨1000⟩ "Canon EOS" 5000 (some exifDup)).1
      "move" "duplicates/")
    rfl rfl rfl rfl rfl rfl rfl (by decide) rfl (by decide)).1

/-- Candidates that do not qualify (unreadable metadata, comparison throw, or
no match) are skipped by the scan loop: the verdict over `pre ++ rest` equals
the verdict over `rest` when nothing in `pre` qualifies. -/
theorem scanJsonFiles_fst_append (env : Env) (tb : String) (fs : Int)
    (cam : String) (exif : Option ExifData) (total : Nat)
    (pre rest : List String)
    (hpre : ∀ k' ∈ pre, scanStep env tb fs cam exif k' = none) :
    (scanJsonFiles env tb fs cam exif total (pre ++ rest)).1
      = (scanJsonFiles env tb fs cam exif total rest).1 := by
  induction pre with
  | nil => rfl
  | cons k' pre' ih =>
    have hk' := hpre k' (by simp)
    have hpre' : ∀ x ∈ pre', scanStep env tb fs cam exif x = none :=
      fun x hx => hpre x (by simp [hx])
    simp only [List.cons_append, scanJsonFiles]
    unfold scanStep at hk'
    cases hf : env.fetchJson tb k' with
    | error e =>
      dsimp only
      exact ih hpre'
    | ok meta =>
      rw [hf] at hk'
      dsimp only at hk' ⊢
      cases hc : dupCompareOne env meta fs cam exif with
      | error e2 =>
        dsimp only
        exact ih hpre'
      | ok v =>
        cases v with
        | none =>
          dsimp only
          exact ih hpre'
        | some p =>
          obtain ⟨r0, c0⟩ := p
          rw [hc] at hk'
          exact absurd hk' (by simp)

/-- Claim C6: when a candidate metadata record and the incoming job both
carry capture metadata, their file sizes differ by fewer than 1024 bytes,
their capture timestamps are equal (and non-empty), their camera names are
equal case-insensitively, and their recorded widths and heights are equal,
the duplicate scan returns `isDuplicate = true` with confidence `high` and
reason `exact_match_exif_timestamp_camera_dimensions`; the first qualifying
candidate in listing order is the one matched (earlier candidates having
produced no verdict), and `filesChecked` counts all metadata sidecars. -/
theorem c6_duplicate_exact (env : Env) (tb : String) (sd : JsDate)
    (cam : String) (fs : Int) (exif : Option ExifData)
    (contents pre post : List String) (k : String) (meta : MetaRecord)
    (ex : ExifData) (stored : StoredExif) (d1 d2 : Dims) (ts : String)
    (dt : Int)
    (hlist : env.listObjects tb
        ("photo-" ++ colonDotToDash ((splitChar (env.toISO sd) 'T').headD ""))
        100 = .ok (some contents))
    (hsplit : contents.filter (fun key => strEndsWith key ".json")
        = pre ++ k :: post)
    (hpre : ∀ k' ∈ pre, scanStep env tb fs cam exif k' = none)
    (hfetch : env.fetchJson tb k = .ok meta)
    (hex : exif = some ex)
    (hstored : meta.exifData = some stored)
    (hsize : (meta.fileSize - fs).natAbs < 1024)
    (hts : stored.dateTimeOriginal = some ts)
    (hts0 : ¬ ts = "")
    (hdt : ex.tags.DateTimeOriginal = some dt)
    (hdt0 : ¬ dt = 0)
    (htseq : ts = env.toISO ⟨dt * 1000⟩)
    (hcam : lowerStr (jsOrStr stored.make "unknown")
        = lowerStr (jsOrStr ex.tags.Make "unknown"))
    (hd1 : meta.originalDimensions = some d1)
    (hd2 : ex.imageSize = some d2)
    (hw : d1.width = d2.width)
    (hh : d1.height = d2.height) :
    (checkForDuplicates env tb sd cam fs exif).1 =
      { isDuplicate := true,
        reason := some "exact_match_exif_timestamp_camera_dimensions",
        existingFile := some (jsReplaceFirst k ".json" ""),
        confidence := some "high",
        filesChecked := (pre ++ k :: post).length } := by
  subst hex
  subst htseq
  have hcmp : dupCompareOne env meta fs cam (some ex) =
      .ok (some ("exact_match_exif_timestamp_camera_dimensions", "high")) := by
    unfold dupCompareOne
    rw [if_pos hsize]
    rw [hstored]
    dsimp only
    rw [hts, hdt]
    dsimp only
    rw [if_neg hdt0]
    have htr : jsTruthyStr (some (env.toISO ⟨dt * 1000⟩)) = true := by
      simpa [jsTruthyStr] using hts0
    rw [if_pos (show (jsTruthyStr (some (env.toISO ⟨dt * 1000⟩))
        && jsTruthyStr (some (env.toISO ⟨dt * 1000⟩))
        && (some (env.toISO ⟨dt * 1000⟩) == some (env.toISO ⟨dt * 1000⟩)))
          = true by simp [htr])]
    rw [hcam]
    rw [if_pos (show (lowerStr (jsOrStr ex.tags.Make "unknown")
        == lowerStr (jsOrStr ex.tags.Make "unknown")) = true by simp)]
    rw [hd1, hd2]
    dsimp only
    rw [hw, hh]
    rw [if_pos (show (d2.width == d2.width && d2.height == d2.height) = true
      by simp)]
  have hbase : scanJsonFiles env tb fs cam (some ex)
      ((pre ++ k :: post).length) (k :: post) =
      (some { isDuplicate := true,
              reason := some "exact_match_exif_timestamp_camera_dimensions",
              existingFile := some (jsReplaceFirst k ".json" ""),
              confidence := some "high",
              filesChecked := (pre ++ k :: post).length },
       [StorageOp.get tb k]) := by
    simp only [scanJsonFiles, hfetch, hcmp]
  simp only [checkForDuplicates]
  rw [hlist]
  cases contents with
  | nil => exact absurd hsplit (by simp)
  | cons c cs =>
    dsimp only
    rw [hsplit]
    have hscan2 : (scanJsonFiles env tb fs cam (some ex)
        ((pre ++ k :: post).length) (pre ++ k :: post)).1 =
        some { isDuplicate := true,
               reason := some "exact_match_exif_timestamp_camera_dimensions",
               existingFile := some (jsReplaceFirst k ".json" ""),
               confidence := some "high",
               filesChecked := (pre ++ k :: post).length } := by
      rw [scanJsonFiles_fst_append env tb fs cam (some ex) _ pre (k :: post) hpre]
      rw [hbase]
    rcases hsc : scanJsonFiles env tb fs cam (some ex)
        ((pre ++ k :: post).length) (pre ++ k :: post) with ⟨res, ops⟩
    rw [hsc] at hscan2
    cases res with
    | none => exact absurd hscan2 (by simp)
    | some v =>
      dsimp only
      injection hscan2

/-- Witness for C6 at the concrete scan environment: the first sidecar is
unreadable, the second (`metaDup`) matches size, timestamp, camera (case
differs) and dimensions, so the verdict is the high-confidence exact match
with two files checked. -/
theorem c6_duplicate_exact_witness :
    (checkForDuplicates envDup "src" ⟨1000⟩ "Canon EOS" 5000 (some exifDup)).1 =
      { isDuplicate := true,
        reason := some "exact_match_exif_timestamp_camera_dimensions",
        existingFile := some (jsReplaceFirst "photo-b.json" ".json" ""),
        confidence := some "high",
        filesChecked := 2 } :=
  c6_duplicate_exact envDup "src" ⟨1000⟩ "Canon EOS" 5000 (some exifDup)
    ["notes.txt", "photo-a.json", "photo-b.json"] ["photo-a.json"] []
    "photo-b.json" metaDup exifDup
    ⟨some "CANON eos", some "1970-01-01T00:00:01.000Z"⟩ ⟨100, 50⟩ ⟨100, 50⟩
    "1970-01-01T00:00:01.000Z" 1
    rfl rfl (by decide) rfl rfl rfl (by decide) rfl (by decide) rfl
    (by decide) rfl (by decide) rfl rfl rfl rfl

/-- Claim C10: every invocation returns a structured result whose status is
`success` or `error`; no execution path yields a `skipped` status. -/
theorem c10_status (env : Env) (cfg : Config) (event : S3Event) :
    (handler env cfg event).1.status = "success"
    ∨ (handler env cfg event).1.status = "error" := by
  unfold handler
  rcases hrp : runPipeline env cfg event with ⟨res, ops⟩
  cases res with
  | error pe =>
    right
    simp [HandlerResult.status, handleError]
  | ok r =>
    left
    have hs := runPipeline_ok_status env cfg event r ops hrp
    simp [HandlerResult.status, hs]

end Photo3s
